import Mathlib

set_option linter.unusedVariables false

/-
  Shallow embedding of the NotionTimeBlock scheduling core.

  Source files embedded here:
    - src/services/calendarService.ts  (CalendarService: checkConflicts,
      findAvailableSlots, findSlotsForDay, calculateSlotQuality)
    - src/services/schedulingService.ts (SchedulingService: scheduleTask,
      findOptimalTimeSlots, convertPreferredTimesToHours, filterAndScoreSlots,
      calculateSlotQuality, selectBestSlot, calculateUrgency, validateTaskData,
      validateScheduledTime)
    - src/config/index.ts (FOCUS_TYPE_CONFIGS, PRIORITY_WEIGHTS,
      DEFAULT_WORK_HOURS, SCHEDULING_CONFIG)

  Modelling conventions:
  * Instants are integer minutes since an epoch (the source uses JavaScript
    millisecond timestamps; every constant in the source is a whole number of
    minutes - 30 min steps, 60/30 min lead times, 5 min buffer, 1 h freshness
    window - so the scaling by 60000 is exact and order-preserving).
  * Calendar days are uniform 1440-minute days in a fixed timezone offset
    (the source pins a named timezone; DST is not modelled, no claim
    depends on it).  `dayOf`/`hourOf` model `toDateString` grouping and
    `getHours`.
  * Each `new Date()` / `moment()` read of the wall clock at the start of a
    scheduling request is modelled by a single `now` parameter; the fresh
    clock read inside `validateScheduledTime` (which happens after awaiting
    external calendar calls, so time may have advanced) is a separate
    `nowAtValidation` parameter.
  * The external Google-Calendar event source is a `List CalendarEvent`
    parameter.  `getEvents(a, b)` returns the events overlapping `[a, b]`;
    since `checkConflicts` filters the fetched events with a predicate that
    already implies overlap with the padded window it fetched, composing
    fetch-and-filter equals filtering the full event list directly.
  * The external Notion update is modelled by a Boolean parameter
    `notionUpdateSucceeds`; whether the update was attempted is recorded in
    the `notionUpdateAttempted` field of the result.
  * Stringly-typed enums of the source are closed inductive types; the
    webhook layer (routes/webhook.ts, Joi schema) guarantees only these
    values reach the core.
  * Human-readable message formatting (moment format strings, ISO dates) is
    abstracted to `toString` of the integer instant; no claim concerns the
    exact date rendering.
-/

namespace NotionTimeBlock

/-- Task priority (source: `'High' | 'Medium' | 'Low'`). -/
inductive Priority where
  | high | medium | low
deriving DecidableEq, Repr

/-- Focus category (source: `'Deep Work' | 'Admin' | 'Calls' | 'Creative'`). -/
inductive FocusType where
  | deepWork | admin | calls | creative
deriving DecidableEq, Repr

/-- Task domain (source: `'Work' | 'Personal' | 'School'`). -/
inductive Domain where
  | work | personal | school
deriving DecidableEq, Repr

/-- Preferred day-part (source: `'morning' | 'afternoon' | 'evening'`). -/
inductive PreferredTime where
  | morning | afternoon | evening
deriving DecidableEq, Repr

/-- Slot quality tier (source: `'excellent' | 'good' | 'acceptable' | 'poor'`). -/
inductive Quality where
  | excellent | good | acceptable | poor
deriving DecidableEq, Repr

/-- Outcome status (source `SchedulingResult.status`:
`'scheduled' | 'conflict' | 'no_slots' | 'error'`). -/
inductive SchedStatus where
  | scheduled | conflictStatus | no_slots | errorStatus
deriving DecidableEq, Repr

/-- A candidate time slot (source `TimeSlot`).  The source field `end` is a
Lean keyword and is rendered `endTime`. -/
structure TimeSlot where
  start : Int
  endTime : Int
  duration : Int
  quality : Quality
  conflicts : Bool
deriving DecidableEq, Repr

/-- A calendar busy interval (source `CalendarEvent`; the `id`/`summary`
string fields play no role in the scheduling logic and are omitted). -/
structure CalendarEvent where
  start : Int
  endTime : Int
  allDay : Bool
deriving DecidableEq, Repr

/-- Task payload (source `TaskData`). -/
structure TaskData where
  task_id : String
  task_name : String
  estimated_duration : Int
  priority : Priority
  focus_type : FocusType
  domain : Option Domain
  preferred_times : List PreferredTime
  due_date : Int
  buffer_before : Int
  buffer_after : Int
  flexible : Bool
  created_at : Option Int
  last_edited_time : Option Int
deriving DecidableEq, Repr

/-- Per-focus-category configuration (source `FocusTypeConfig`). -/
structure FocusTypeConfig where
  preferred_hours : List Int
  min_duration : Int
  max_duration : Int
  preferred_duration : Int
  requires_buffer : Bool
  buffer_before : Int
  buffer_after : Int
deriving DecidableEq, Repr

/-- Work-hour bounds (source `WorkHours`; the `end` field is rendered
`endHour`; the timezone string is abstracted away). -/
structure WorkHours where
  start : Int
  endHour : Int
deriving DecidableEq, Repr

/-- Source `FOCUS_TYPE_CONFIGS` table from src/config/index.ts. -/
def FOCUS_TYPE_CONFIGS : FocusType → FocusTypeConfig
  | .deepWork =>
      { preferred_hours := [9, 10, 11, 12, 13, 14]
        min_duration := 60, max_duration := 240, preferred_duration := 120
        requires_buffer := true, buffer_before := 15, buffer_after := 15 }
  | .admin =>
      { preferred_hours := [9, 10, 11, 12, 13, 14, 15, 16]
        min_duration := 15, max_duration := 90, preferred_duration := 30
        requires_buffer := false, buffer_before := 5, buffer_after := 5 }
  | .calls =>
      { preferred_hours := [10, 11, 12, 13, 14, 15]
        min_duration := 15, max_duration := 120, preferred_duration := 60
        requires_buffer := true, buffer_before := 10, buffer_after := 10 }
  | .creative =>
      { preferred_hours := [9, 10, 11, 12, 13, 14, 15]
        min_duration := 30, max_duration := 180, preferred_duration := 90
        requires_buffer := true, buffer_before := 10, buffer_after := 10 }

/-- Source `PRIORITY_WEIGHTS` (High 3, Medium 2, Low 1), as exact rationals. -/
def PRIORITY_WEIGHTS : Priority → Rat
  | .high => 3
  | .medium => 2
  | .low => 1

/-- Source `DEFAULT_WORK_HOURS` with the env defaults 9 and 17. -/
def DEFAULT_WORK_HOURS : WorkHours := { start := 9, endHour := 17 }

/-- Source `SCHEDULING_CONFIG.max_lookahead_days`. -/
def max_lookahead_days : Int := 14

/-- Source `SCHEDULING_CONFIG.conflict_check_buffer` (minutes). -/
def conflict_check_buffer : Int := 5

/-- Calendar day index of an instant (models `Date.toDateString` grouping). -/
def dayOf (t : Int) : Int := t.fdiv 1440

/-- Hour-of-day of an instant, 0..23 (models `Date.getHours`). -/
def hourOf (t : Int) : Int := (t.emod 1440).fdiv 60

/-- The instant with hour `h` (minutes 0, seconds 0) on the calendar day of
`t` (models `d.setHours(h, 0, 0, 0)`). -/
def atHour (t h : Int) : Int := dayOf t * 1440 + h * 60

/-- Quality rank used by both sort comparators in the source
(`{ excellent: 4, good: 3, acceptable: 2, poor: 1 }`). -/
def qualityOrder : Quality → Int
  | .excellent => 4
  | .good => 3
  | .acceptable => 2
  | .poor => 1

/-- The sort order used by `findAvailableSlots` and `filterAndScoreSlots`:
the JavaScript comparator returns `bQuality - aQuality` when the tiers
differ and `a.start - b.start` otherwise, so `a` sorts no later than `b`
exactly when the comparator is `≤ 0`: higher tier first, then earlier
start.  JavaScript `Array.prototype.sort` is stable, as is
`List.mergeSort`. -/
def slotLE (a b : TimeSlot) : Bool :=
  decide (qualityOrder b.quality < qualityOrder a.quality ∨
    (qualityOrder a.quality = qualityOrder b.quality ∧ a.start ≤ b.start))

namespace CalendarService

/-- Source `CalendarService.checkConflicts` (calendarService.ts lines
73-101): pad the window by `bufferMinutes` on both sides, keep the
non-all-day events satisfying the overlap disjunction, report a conflict
when any remain.  Returns (hasConflicts, conflictingEvents). -/
def checkConflicts (startTime endTime bufferMinutes : Int)
    (events : List CalendarEvent) : Bool × List CalendarEvent :=
  let bufferStart := startTime - bufferMinutes
  let bufferEnd := endTime + bufferMinutes
  let conflictingEvents := events.filter fun event =>
    if event.allDay then false
    else decide ((event.start < endTime ∧ event.endTime > startTime) ∨
      (event.start < bufferEnd ∧ event.endTime > bufferStart))
  (!conflictingEvents.isEmpty, conflictingEvents)

/-- Source `CalendarService.calculateSlotQuality` (calendarService.ts lines
221-246): hour-proximity baseline, then a duration adjustment. -/
def calculateSlotQuality (startTime : Int) (preferredHours : List Int)
    (duration : Int) : Quality :=
  let hour := hourOf startTime
  let q1 : Quality :=
    if preferredHours.contains hour then .excellent
    else if preferredHours.any fun h => decide ((h - hour).natAbs ≤ 1) then .good
    else .acceptable
  if duration ≥ 120 ∧ 9 ≤ hour ∧ hour ≤ 14 then
    if q1 = .excellent then .excellent else .good
  else if duration ≤ 30 ∧ hour ≥ 15 then
    if q1 = .poor then .poor else .acceptable
  else q1

/-- The 30-minute stepping loop of `findSlotsForDay` (calendarService.ts
lines 179-213), with explicit fuel.  Each iteration consumes one unit of
fuel and advances `currentTime` by 30 minutes, so any fuel of at least
`(workEnd - currentTime) + 1` reproduces the source loop exactly (the loop
exits as soon as `currentTime ≥ workEnd` or the slot overruns `workEnd`). -/
def findSlotsLoop (events : List CalendarEvent) (preferredHours : List Int)
    (duration workEnd : Int) : Nat → Int → List TimeSlot
  | 0, _ => []
  | fuel + 1, currentTime =>
    if currentTime < workEnd then
      let slotEnd := currentTime + duration
      if slotEnd > workEnd then []
      else
        let rest := findSlotsLoop events preferredHours duration workEnd fuel
          (currentTime + 30)
        if (checkConflicts currentTime slotEnd conflict_check_buffer events).1 then
          rest
        else
          { start := currentTime, endTime := slotEnd, duration := duration
            quality := calculateSlotQuality currentTime preferredHours duration
            conflicts := false } :: rest
    else []

/-- Source `CalendarService.findSlotsForDay` (calendarService.ts lines
142-216).  Past days yield nothing; for the current day the effective work
start is pushed to `now + 60` minutes when that is later than the
configured start; then the stepping loop walks the working window.  (The
per-day `getEvents(dayStart, dayEnd)` fetch in the source is not consulted
by the conflict logic - `checkConflicts` performs its own fetch - so it
does not appear here.) -/
def findSlotsForDay (date duration : Int) (preferredHours : List Int)
    (events : List CalendarEvent) (now : Int) : List TimeSlot :=
  if date < now then []
  else
    let workStart0 := atHour date DEFAULT_WORK_HOURS.start
    let workEnd := atHour date DEFAULT_WORK_HOURS.endHour
    let isToday := dayOf date = dayOf now
    let workStart := if isToday ∧ now + 60 > workStart0 then now + 60 else workStart0
    findSlotsLoop events preferredHours duration workEnd
      ((workEnd - workStart).toNat + 1) workStart

/-- Source `CalendarService.findAvailableSlots` (calendarService.ts lines
106-137): one `findSlotsForDay` per calendar day from `startDate` while
`currentDate ≤ endDate` (stepping one day), then sort by quality then
start. -/
def findAvailableSlots (startDate endDate duration : Int)
    (preferredHours : List Int) (events : List CalendarEvent) (now : Int) :
    List TimeSlot :=
  let numDays := ((endDate - startDate).fdiv 1440 + 1).toNat
  ((List.range numDays).flatMap fun k =>
    findSlotsForDay (startDate + k * 1440) duration preferredHours events now
  ).mergeSort slotLE

end CalendarService

/-- Validation result (source `{ valid: boolean; message?: string }`; a
valid result carries the empty message). -/
structure ValidationResult where
  valid : Bool
  message : String
deriving DecidableEq, Repr

/-- Source `SchedulingResult`. -/
structure SchedulingResult where
  success : Bool
  status : SchedStatus
  message : String
  scheduled_time : Option (Int × Int)
  alternative_slots : Option (List TimeSlot)
deriving DecidableEq, Repr

/-- One run of `scheduleTask`: the returned `SchedulingResult` together
with whether the external Notion task-store update was attempted. -/
structure SchedRun where
  result : SchedulingResult
  notionUpdateAttempted : Bool
deriving DecidableEq, Repr

namespace SchedulingService

/-- Source `SchedulingService.convertPreferredTimesToHours`
(schedulingService.ts lines 156-180). -/
def convertPreferredTimesToHours (preferredTimes : List PreferredTime)
    (domain : Option Domain) : List Int :=
  let timeMapping : PreferredTime → List Int
    | .morning => [9, 10, 11, 12]
    | .afternoon => [13, 14, 15, 16]
    | .evening => [17, 18, 19]
  let hours := preferredTimes.flatMap timeMapping
  if hours.isEmpty ∨ domain = some .work then [9, 10, 11, 12, 13, 14, 15, 16]
  else hours

/-- Baseline stage of `SchedulingService.calculateSlotQuality`
(schedulingService.ts lines 237-242): exact preferred-hour match is
excellent, within one hour is good, otherwise acceptable. -/
def baseQuality (preferredHours : List Int) (slotHour : Int) : Quality :=
  if preferredHours.contains slotHour then .excellent
  else if preferredHours.any fun h => decide ((h - slotHour).natAbs ≤ 1) then .good
  else .acceptable

/-- Deep-Work stage (schedulingService.ts line 245-247): a Deep Work task
in a slot of at least 120 minutes keeps excellent and otherwise becomes
good. -/
def deepWorkAdjust (focus : FocusType) (duration : Int) (q : Quality) : Quality :=
  if focus = .deepWork ∧ duration ≥ 120 then
    if q = .excellent then .excellent else .good
  else q

/-- High-priority stage (schedulingService.ts lines 249-251): a poor tier
is raised to acceptable for High-priority tasks. -/
def highPriorityAdjust (priority : Priority) (q : Quality) : Quality :=
  if priority = .high then (if q = .poor then .acceptable else q) else q

/-- Freshness stage (schedulingService.ts lines 254-262): tasks created
within the last hour get acceptable raised to good and good raised to
excellent. -/
def freshnessBoost (created_at : Option Int) (now : Int) (q : Quality) : Quality :=
  match created_at with
  | none => q
  | some c =>
    if now - c < 60 then
      if q = .acceptable then .good else if q = .good then .excellent else q
    else q

/-- Recent-edit stage (schedulingService.ts lines 265-272): tasks edited
within the last hour get acceptable raised to good. -/
def editBoost (last_edited_time : Option Int) (now : Int) (q : Quality) : Quality :=
  match last_edited_time with
  | none => q
  | some e =>
    if now - e < 60 then (if q = .acceptable then .good else q) else q

/-- Source `SchedulingService.calculateSlotQuality` (schedulingService.ts
lines 227-275): the source mutates a local `quality` variable through the
five stages in this order. -/
def calculateSlotQuality (slot : TimeSlot) (task : TaskData)
    (focusConfig : FocusTypeConfig) (now : Int) : Quality :=
  editBoost task.last_edited_time now
    (freshnessBoost task.created_at now
      (highPriorityAdjust task.priority
        (deepWorkAdjust task.focus_type slot.duration
          (baseQuality focusConfig.preferred_hours (hourOf slot.start)))))

/-- Source `SchedulingService.filterAndScoreSlots` (schedulingService.ts
lines 185-222): drop slots with out-of-range duration, drop
non-preferred-hour slots for non-High, non-flexible tasks, re-score the
survivors, and sort by quality tier descending then start ascending. -/
def filterAndScoreSlots (slots : List TimeSlot) (task : TaskData)
    (focusConfig : FocusTypeConfig) (now : Int) : List TimeSlot :=
  ((slots.filter fun slot =>
      if slot.duration < focusConfig.min_duration then false
      else if slot.duration > focusConfig.max_duration then false
      else
        let isPreferredHour := focusConfig.preferred_hours.contains (hourOf slot.start)
        if task.priority = .high then true
        else isPreferredHour || task.flexible
    ).map fun slot =>
      { slot with quality := calculateSlotQuality slot task focusConfig now }
  ).mergeSort slotLE

/-- Source `SchedulingService.selectBestSlot` (schedulingService.ts lines
280-295). -/
def selectBestSlot (slots : List TimeSlot) (task : TaskData)
    (urgency : Rat) : Option TimeSlot :=
  if slots.isEmpty then none
  else if urgency > 8 / 10 then
    let goodSlots := slots.filter fun s =>
      decide (s.quality = .excellent) || decide (s.quality = .good)
    match goodSlots with
    | g :: _ => some g
    | [] => slots.head?
  else slots.head?

/-- The time-urgency ladder inlined in `calculateUrgency`
(schedulingService.ts lines 311-319), as exact rationals. -/
def timeUrgency (daysUntilDue : Int) : Rat :=
  if daysUntilDue ≤ 0 then 1
  else if daysUntilDue ≤ 1 then 8 / 10
  else if daysUntilDue ≤ 3 then 6 / 10
  else if daysUntilDue ≤ 7 then 4 / 10
  else 0

/-- Source `SchedulingService.calculateUrgency` (schedulingService.ts lines
300-322).  `moment.diff(_, 'days')` truncates toward zero, which is
`Int.tdiv` on the minute difference. -/
def calculateUrgency (task : TaskData) (now : Int) : Rat :=
  let daysUntilDue := Int.tdiv (task.due_date - now) 1440
  min (PRIORITY_WEIGHTS task.priority * (3 / 10) + timeUrgency daysUntilDue) 1

/-- Source `SchedulingService.validateTaskData` (schedulingService.ts lines
327-345).  The priority and focus-type membership checks always pass in
the embedding because those fields are closed enums. -/
def validateTaskData (task : TaskData) : ValidationResult :=
  if task.task_id = "" then { valid := false, message := "Task ID is required" }
  else if task.estimated_duration ≤ 0 then
    { valid := false, message := "Valid estimated duration is required" }
  else { valid := true, message := "" }

/-- The too-soon message of `validateScheduledTime` (the ISO rendering of
the instant is abstracted to `toString`). -/
def tooSoonMessage (scheduledTime : Int) : String :=
  "Scheduled time " ++ toString scheduledTime ++
    " is too soon. Minimum scheduling time is 30 minutes from now."

/-- Source `SchedulingService.validateScheduledTime` (schedulingService.ts
lines 350-362): the chosen start must be at least 30 minutes after the
clock reading taken at validation time. -/
def validateScheduledTime (scheduledTime now : Int) : ValidationResult :=
  let minScheduledTime := now + 30
  if scheduledTime < minScheduledTime then
    { valid := false, message := tooSoonMessage scheduledTime }
  else { valid := true, message := "" }

/-- Source `SchedulingService.findOptimalTimeSlots` (schedulingService.ts
lines 126-151): effective duration is `max(estimated, min_duration)`, the
lookahead window is `[now, now + 14 days]` (`getMaxSchedulingDate`), and
the generated slots are filtered, re-scored and sorted. -/
def findOptimalTimeSlots (task : TaskData) (focusConfig : FocusTypeConfig)
    (events : List CalendarEvent) (now : Int) : List TimeSlot :=
  let duration := max task.estimated_duration focusConfig.min_duration
  let preferredHours := convertPreferredTimesToHours task.preferred_times task.domain
  let slots := CalendarService.findAvailableSlots now
    (now + max_lookahead_days * 1440) duration preferredHours events now
  filterAndScoreSlots slots task focusConfig now

/-- Display string for a slot (source `formatTimeSlot`; moment's date
formatting is abstracted to `toString` of the instants). -/
def formatTimeSlot (slot : TimeSlot) : String :=
  toString slot.start ++ " - " ++ toString slot.endTime

/-- Source `SchedulingService.scheduleTask` (schedulingService.ts lines
20-121): validate, compute urgency, generate-filter-score slots, select,
validate the lead time, then attempt the external Notion update. -/
def scheduleTask (task : TaskData) (events : List CalendarEvent)
    (now nowAtValidation : Int) (notionUpdateSucceeds : Bool) : SchedRun :=
  let validation := validateTaskData task
  if !validation.valid then
    { result := { success := false, status := .errorStatus
                  message := validation.message
                  scheduled_time := none, alternative_slots := none }
      notionUpdateAttempted := false }
  else
    let focusConfig := FOCUS_TYPE_CONFIGS task.focus_type
    let urgency := calculateUrgency task now
    let timeSlots := findOptimalTimeSlots task focusConfig events now
    if timeSlots.isEmpty then
      { result := { success := false, status := .no_slots
                    message := "No available time slots found for this task"
                    scheduled_time := none, alternative_slots := none }
        notionUpdateAttempted := false }
    else
      match selectBestSlot timeSlots task urgency with
      | none =>
        { result := { success := false, status := .no_slots
                      message := "No suitable time slots found for this task"
                      scheduled_time := none
                      alternative_slots := some (timeSlots.take 3) }
          notionUpdateAttempted := false }
      | some bestSlot =>
        let timeValidation := validateScheduledTime bestSlot.start nowAtValidation
        if !timeValidation.valid then
          { result := { success := false, status := .errorStatus
                        message := timeValidation.message
                        scheduled_time := none, alternative_slots := none }
            notionUpdateAttempted := false }
        else if !notionUpdateSucceeds then
          { result := { success := false, status := .errorStatus
                        message := "Failed to update Notion task with scheduled time"
                        scheduled_time := none, alternative_slots := none }
            notionUpdateAttempted := true }
        else
          { result := { success := true, status := .scheduled
                        message := "Task scheduled for " ++ formatTimeSlot bestSlot
                        scheduled_time := some (bestSlot.start, bestSlot.endTime)
                        alternative_slots := none }
            notionUpdateAttempted := true }

end SchedulingService

/-- Modelled from the spec (wording of claim C1): the earliest slot - the
one with the minimal start time - among those satisfying `p`, or `none`
when no slot qualifies. -/
def earliestSlotSuchThat (p : TimeSlot → Bool) (slots : List TimeSlot) :
    Option TimeSlot :=
  (slots.filter p).foldl (fun acc s =>
    match acc with
    | none => some s
    | some a => if s.start < a.start then some s else some a) none

/-- Modelled from the spec (claim C1's selection policy, stated verbatim):
if urgency exceeds 0.8, the earliest slot whose tier is excellent or good,
falling back to the globally earliest candidate when none qualifies;
otherwise the top of the sorted list. -/
def c1SpecSelect (slots : List TimeSlot) (urgency : Rat) : Option TimeSlot :=
  if urgency > 8 / 10 then
    match earliestSlotSuchThat
        (fun s => decide (s.quality = .excellent) || decide (s.quality = .good))
        slots with
    | some s => some s
    | none => earliestSlotSuchThat (fun _ => true) slots
  else slots.head?

section Lemmas

open SchedulingService CalendarService

lemma baseQuality_ne_poor (preferredHours : List Int) (slotHour : Int) :
    baseQuality preferredHours slotHour ≠ .poor := by
  unfold baseQuality
  split_ifs <;> simp

lemma deepWorkAdjust_ne_poor (focus : FocusType) (duration : Int) (q : Quality)
    (h : q ≠ .poor) : deepWorkAdjust focus duration q ≠ .poor := by
  unfold deepWorkAdjust
  split_ifs <;> simp_all

lemma highPriorityAdjust_ne_poor (priority : Priority) (q : Quality)
    (h : q ≠ .poor) : highPriorityAdjust priority q ≠ .poor := by
  unfold highPriorityAdjust
  split_ifs <;> simp_all

lemma freshnessBoost_ne_poor (created_at : Option Int) (now : Int) (q : Quality)
    (h : q ≠ .poor) : freshnessBoost created_at now q ≠ .poor := by
  unfold freshnessBoost
  cases created_at <;> simp only []
  · exact h
  · split_ifs <;> simp_all

lemma editBoost_ne_poor (last_edited_time : Option Int) (now : Int) (q : Quality)
    (h : q ≠ .poor) : editBoost last_edited_time now q ≠ .poor := by
  unfold editBoost
  cases last_edited_time <;> simp only []
  · exact h
  · split_ifs <;> simp_all

/-- The slot scorer of the scheduling service never produces the poor tier
for any input at all (the source never assigns the value `'poor'`). -/
lemma calculateSlotQuality_ne_poor (slot : TimeSlot) (task : TaskData)
    (focusConfig : FocusTypeConfig) (now : Int) :
    SchedulingService.calculateSlotQuality slot task focusConfig now ≠ .poor :=
  editBoost_ne_poor _ _ _ (freshnessBoost_ne_poor _ _ _
    (highPriorityAdjust_ne_poor _ _ (deepWorkAdjust_ne_poor _ _ _
      (baseQuality_ne_poor _ _))))

lemma slotLE_refl (a : TimeSlot) : slotLE a a = true := by
  simp [slotLE]

lemma slotLE_trans : ∀ a b c : TimeSlot, slotLE a b → slotLE b c → slotLE a c := by
  intro a b c hab hbc
  simp only [slotLE, decide_eq_true_eq] at *
  omega

lemma slotLE_total : ∀ a b : TimeSlot, slotLE a b || slotLE b a := by
  intro a b
  simp only [slotLE, Bool.or_eq_true, decide_eq_true_eq]
  omega

/-- Evaluation helper: a merge sort whose input already equals a sorted
list is that list (`List.mergeSort` is defined by well-founded recursion,
so concrete runs are computed through this lemma rather than by kernel
reduction). -/
lemma mergeSort_eval (l out : List TimeSlot) (h1 : l = out)
    (h2 : out.Pairwise fun a b => slotLE a b = true) :
    l.mergeSort slotLE = out := by
  subst h1
  exact List.mergeSort_of_sorted h2

lemma filterAndScoreSlots_sorted (slots : List TimeSlot) (task : TaskData)
    (cfg : FocusTypeConfig) (now : Int) :
    (filterAndScoreSlots slots task cfg now).Pairwise fun a b => slotLE a b := by
  unfold filterAndScoreSlots
  exact List.sorted_mergeSort slotLE_trans slotLE_total _

lemma filterAndScoreSlots_mem_ne_poor (slots : List TimeSlot) (task : TaskData)
    (cfg : FocusTypeConfig) (now : Int) (s : TimeSlot)
    (hs : s ∈ filterAndScoreSlots slots task cfg now) : s.quality ≠ .poor := by
  unfold filterAndScoreSlots at hs
  rw [List.mem_mergeSort] at hs
  obtain ⟨a, -, rfl⟩ := List.mem_map.mp hs
  exact calculateSlotQuality_ne_poor a task cfg now

lemma selectBestSlot_isSome (slots : List TimeSlot) (task : TaskData) (u : Rat)
    (h : slots ≠ []) : (selectBestSlot slots task u).isSome = true := by
  obtain ⟨x, xs, rfl⟩ := List.exists_cons_of_ne_nil h
  unfold selectBestSlot
  simp only [List.isEmpty_cons, Bool.false_eq_true, if_false]
  split
  · split
    · rfl
    · rfl
  · rfl

lemma selectBestSlot_eq_none_iff (slots : List TimeSlot) (task : TaskData)
    (u : Rat) : selectBestSlot slots task u = none ↔ slots = [] := by
  constructor
  · intro h
    by_contra hne
    have hsome := selectBestSlot_isSome slots task u hne
    rw [h] at hsome
    simp at hsome
  · rintro rfl
    rfl

/-- Every slot emitted by the stepping loop carries the requested duration,
a cleared conflict flag, an end equal to start plus duration, and a start
no earlier than the loop's entry time. -/
lemma findSlotsLoop_mem (events : List CalendarEvent) (ph : List Int)
    (d we : Int) :
    ∀ (fuel : Nat) (t : Int) (s : TimeSlot),
      s ∈ findSlotsLoop events ph d we fuel t →
      s.duration = d ∧ s.conflicts = false ∧ t ≤ s.start ∧
        s.endTime = s.start + d := by
  intro fuel
  induction fuel with
  | zero =>
    intro t s hs
    simp [findSlotsLoop] at hs
  | succ n ih =>
    intro t s hs
    simp only [findSlotsLoop] at hs
    split at hs
    · split at hs
      · simp at hs
      · split at hs
        · obtain ⟨h1, h2, h3, h4⟩ := ih (t + 30) s hs
          exact ⟨h1, h2, by omega, h4⟩
        · rcases List.mem_cons.mp hs with rfl | hmem
          · exact ⟨rfl, rfl, le_refl _, rfl⟩
          · obtain ⟨h1, h2, h3, h4⟩ := ih (t + 30) s hmem
            exact ⟨h1, h2, by omega, h4⟩
    · simp at hs

/-- Every slot emitted by the per-day generator carries the requested
duration, a cleared conflict flag, and an end equal to start plus the
duration. -/
lemma findSlotsForDay_mem (date d : Int) (ph : List Int)
    (events : List CalendarEvent) (now : Int) (s : TimeSlot)
    (hs : s ∈ findSlotsForDay date d ph events now) :
    s.duration = d ∧ s.conflicts = false ∧ s.endTime = s.start + d := by
  unfold findSlotsForDay at hs
  split at hs
  · simp at hs
  · obtain ⟨h1, h2, h3, h4⟩ := findSlotsLoop_mem events ph d _ _ _ s hs
    exact ⟨h1, h2, h4⟩

/-- For a current-day invocation, every generated slot begins at or after
`now + 60` minutes: the loop entry time is the later of the configured
work start and `now + 60`. -/
lemma findSlotsForDay_today_start (date d : Int) (ph : List Int)
    (events : List CalendarEvent) (now : Int) (hToday : dayOf date = dayOf now)
    (s : TimeSlot) (hs : s ∈ findSlotsForDay date d ph events now) :
    now + 60 ≤ s.start := by
  unfold findSlotsForDay at hs
  split at hs
  · simp at hs
  · dsimp only at hs
    split at hs
    · exact (findSlotsLoop_mem events ph d _ _ _ s hs).2.2.1
    · rename_i hcond
      have hws : now + 60 ≤ atHour date DEFAULT_WORK_HOURS.start := by
        by_contra hlt
        exact hcond ⟨hToday, by omega⟩
      have := (findSlotsLoop_mem events ph d _ _ _ s hs).2.2.1
      omega

/-- Every slot aggregated across the lookahead horizon carries the
requested duration. -/
lemma findAvailableSlots_duration (startDate endDate d : Int) (ph : List Int)
    (events : List CalendarEvent) (now : Int) (s : TimeSlot)
    (hs : s ∈ findAvailableSlots startDate endDate d ph events now) :
    s.duration = d := by
  unfold findAvailableSlots at hs
  rw [List.mem_mergeSort] at hs
  obtain ⟨k, -, hk⟩ := List.mem_flatMap.mp hs
  exact (findSlotsForDay_mem _ d ph events now s hk).1

end Lemmas

section Claims

open SchedulingService CalendarService

/-- Claim C2: the conflict check pads the proposed window outward by
`bufferMinutes` on both sides and reports a conflict exactly when some
non-all-day busy interval satisfies `aStart < bEnd && aEnd > bStart`
against the padded window.  In particular, with zero buffer it reports a
conflict exactly on literal overlap, so two windows sharing only a
boundary instant do not conflict (instantiate `buf := 0`; a touching
interval has `e.endTime = ws` or `e.start = we`, falsifying the strict
inequalities). -/
theorem checkConflicts_padded_overlap (ws we buf : Int)
    (events : List CalendarEvent) (hbuf : 0 ≤ buf) :
    (CalendarService.checkConflicts ws we buf events).1 = true ↔
      ∃ e ∈ events, e.allDay = false ∧ e.start < we + buf ∧ ws - buf < e.endTime := by
  unfold CalendarService.checkConflicts
  dsimp only
  rw [Bool.not_eq_true', List.isEmpty_eq_false_iff_exists_mem]
  constructor
  · rintro ⟨e, he⟩
    obtain ⟨hmem, hp⟩ := List.mem_filter.mp he
    cases hAD : e.allDay with
    | true => rw [hAD] at hp; simp at hp
    | false =>
      rw [hAD] at hp
      simp only [Bool.false_eq_true, if_false, decide_eq_true_eq] at hp
      exact ⟨e, hmem, hAD, by omega, by omega⟩
  · rintro ⟨e, hmem, hAD, h1, h2⟩
    refine ⟨e, List.mem_filter.mpr ⟨hmem, ?_⟩⟩
    rw [hAD]
    simp only [Bool.false_eq_true, if_false, decide_eq_true_eq]
    omega

/-- Witness for claim C2: a concrete window, buffer 5 and busy interval
that overlaps only the padded window. -/
theorem checkConflicts_padded_overlap_witness :
    (CalendarService.checkConflicts 100 160 5
      [{ start := 162, endTime := 200, allDay := false }]).1 = true :=
  (checkConflicts_padded_overlap 100 160 5
    [{ start := 162, endTime := 200, allDay := false }] (by decide)).mpr
    ⟨{ start := 162, endTime := 200, allDay := false },
      by decide, by decide, by decide, by decide⟩

/-- Claim C4: when the day slot generator is invoked for the current date,
the effective window start is the later of the configured work start and
`now + 60` minutes, so every slot generated for the current day starts at
or after `now + 60` minutes. -/
theorem findSlotsForDay_today_min_lead (date d : Int) (ph : List Int)
    (events : List CalendarEvent) (now : Int)
    (hToday : dayOf date = dayOf now) :
    ∀ s ∈ CalendarService.findSlotsForDay date d ph events now,
      now + 60 ≤ s.start :=
  fun s hs => findSlotsForDay_today_start date d ph events now hToday s hs

/-- Witness for claim C4: at 9:00 of day zero, the generator for that same
day emits the 10:00 slot, one hour after `now`. -/
theorem findSlotsForDay_today_min_lead_witness :
    540 + 60 ≤
      (⟨600, 660, 60, .acceptable, false⟩ : TimeSlot).start :=
  findSlotsForDay_today_min_lead 540 60 [] [] 540 (by decide)
    ⟨600, 660, 60, .acceptable, false⟩ (by decide)

/-- Claim C6: `calculateUrgency` is `priorityWeight * 0.3 + timeUrgency`
clamped above at 1, the priority weights are High 3 / Medium 2 / Low 1,
the time-urgency ladder is 1.0 / 0.8 / 0.6 / 0.4 / 0.0 at the claimed
day thresholds, and the result always lies in [0, 1]. -/
theorem calculateUrgency_spec (task : TaskData) (now : Int) :
    calculateUrgency task now =
      min (PRIORITY_WEIGHTS task.priority * (3 / 10) +
        timeUrgency (Int.tdiv (task.due_date - now) 1440)) 1 ∧
    0 ≤ calculateUrgency task now ∧ calculateUrgency task now ≤ 1 ∧
    PRIORITY_WEIGHTS .high = 3 ∧ PRIORITY_WEIGHTS .medium = 2 ∧
    PRIORITY_WEIGHTS .low = 1 ∧
    (∀ d : Int, d ≤ 0 → timeUrgency d = 1) ∧
    (∀ d : Int, 0 < d → d ≤ 1 → timeUrgency d = 8 / 10) ∧
    (∀ d : Int, 1 < d → d ≤ 3 → timeUrgency d = 6 / 10) ∧
    (∀ d : Int, 3 < d → d ≤ 7 → timeUrgency d = 4 / 10) ∧
    (∀ d : Int, 7 < d → timeUrgency d = 0) := by
  have htu : ∀ d : Int, 0 ≤ timeUrgency d := by
    intro d
    unfold timeUrgency
    split_ifs <;> norm_num
  have hw : 0 ≤ PRIORITY_WEIGHTS task.priority * (3 / 10 : Rat) := by
    cases task.priority <;> norm_num [PRIORITY_WEIGHTS]
  refine ⟨rfl, ?_, ?_, rfl, rfl, rfl, ?_, ?_, ?_, ?_, ?_⟩
  · exact le_min (by have := htu (Int.tdiv (task.due_date - now) 1440); calc
      (0 : Rat) ≤ PRIORITY_WEIGHTS task.priority * (3 / 10) + _ := by linarith
      _ = _ := rfl) zero_le_one
  · exact min_le_right _ _
  · intro d hd; rw [timeUrgency, if_pos hd]
  · intro d h1 h2; rw [timeUrgency, if_neg (by omega), if_pos h2]
  · intro d h1 h2; rw [timeUrgency, if_neg (by omega), if_neg (by omega), if_pos h2]
  · intro d h1 h2
    rw [timeUrgency, if_neg (by omega), if_neg (by omega), if_neg (by omega),
      if_pos h2]
  · intro d h1
    rw [timeUrgency, if_neg (by omega), if_neg (by omega), if_neg (by omega),
      if_neg (by omega)]

/-- Witness for claim C6: the bounds and ladder values evaluated at a
concrete task and concrete day counts. -/
theorem calculateUrgency_spec_witness :
    (0 : Rat) ≤ calculateUrgency
      { task_id := "w6", task_name := "w", estimated_duration := 60
        priority := .high, focus_type := .deepWork, domain := none
        preferred_times := [.morning], due_date := 0
        buffer_before := 15, buffer_after := 15, flexible := true
        created_at := none, last_edited_time := none } 0 ∧
    calculateUrgency
      { task_id := "w6", task_name := "w", estimated_duration := 60
        priority := .high, focus_type := .deepWork, domain := none
        preferred_times := [.morning], due_date := 0
        buffer_before := 15, buffer_after := 15, flexible := true
        created_at := none, last_edited_time := none } 0 ≤ 1 ∧
    timeUrgency (-2) = 1 ∧ timeUrgency 1 = 8 / 10 ∧ timeUrgency 2 = 6 / 10 ∧
    timeUrgency 5 = 4 / 10 ∧ timeUrgency 9 = 0 := by
  have h := calculateUrgency_spec
    { task_id := "w6", task_name := "w", estimated_duration := 60
      priority := .high, focus_type := .deepWork, domain := none
      preferred_times := [.morning], due_date := 0
      buffer_before := 15, buffer_after := 15, flexible := true
      created_at := none, last_edited_time := none } 0
  exact ⟨h.2.1, h.2.2.1,
    h.2.2.2.2.2.2.1 (-2) (by decide),
    h.2.2.2.2.2.2.2.1 1 (by decide) (by decide),
    h.2.2.2.2.2.2.2.2.1 2 (by decide) (by decide),
    h.2.2.2.2.2.2.2.2.2.1 5 (by decide) (by decide),
    h.2.2.2.2.2.2.2.2.2.2 9 (by decide)⟩

/-- Claim C7: for every slot, focus profile and High-priority task, the
slot scorer never assigns the poor tier (in the source a poor tier would
be raised to acceptable; in fact no stage of the scorer ever produces
poor). -/
theorem highPriority_never_poor (slot : TimeSlot) (task : TaskData)
    (cfg : FocusTypeConfig) (now : Int) (h : task.priority = .high) :
    SchedulingService.calculateSlotQuality slot task cfg now ≠ .poor :=
  calculateSlotQuality_ne_poor slot task cfg now

/-- Witness for claim C7: a concrete High-priority task and slot. -/
theorem highPriority_never_poor_witness :
    SchedulingService.calculateSlotQuality
      ⟨1920, 1980, 60, .acceptable, false⟩
      { task_id := "w7", task_name := "w", estimated_duration := 60
        priority := .high, focus_type := .deepWork, domain := none
        preferred_times := [.morning], due_date := 0
        buffer_before := 15, buffer_after := 15, flexible := true
        created_at := none, last_edited_time := none }
      (FOCUS_TYPE_CONFIGS .deepWork) 0 ≠ .poor :=
  highPriority_never_poor ⟨1920, 1980, 60, .acceptable, false⟩
    { task_id := "w7", task_name := "w", estimated_duration := 60
      priority := .high, focus_type := .deepWork, domain := none
      preferred_times := [.morning], due_date := 0
      buffer_before := 15, buffer_after := 15, flexible := true
      created_at := none, last_edited_time := none }
    (FOCUS_TYPE_CONFIGS .deepWork) 0 rfl

/-- Claim C8: every candidate slot produced by the day slot generator has
`end - start` exactly equal to the requested (effective) duration, and a
conflict flag of false. -/
theorem findSlotsForDay_slot_shape (date d : Int) (ph : List Int)
    (events : List CalendarEvent) (now : Int) :
    ∀ s ∈ CalendarService.findSlotsForDay date d ph events now,
      s.endTime - s.start = d ∧ s.conflicts = false := by
  intro s hs
  obtain ⟨h1, h2, h3⟩ := findSlotsForDay_mem date d ph events now s hs
  exact ⟨by omega, h2⟩

/-- Witness for claim C8: a concrete slot generated for day one. -/
theorem findSlotsForDay_slot_shape_witness :
    (⟨1980, 2040, 60, .acceptable, false⟩ : TimeSlot).endTime -
        (⟨1980, 2040, 60, .acceptable, false⟩ : TimeSlot).start = 60 ∧
      (⟨1980, 2040, 60, .acceptable, false⟩ : TimeSlot).conflicts = false :=
  findSlotsForDay_slot_shape 1440 60 [] [] 0
    ⟨1980, 2040, 60, .acceptable, false⟩ (by decide)

/-- When every incoming slot is longer than the profile's maximum
duration, the filter stage of `filterAndScoreSlots` drops them all. -/
lemma filterAndScoreSlots_eq_nil_of_overlong (slots : List TimeSlot)
    (task : TaskData) (cfg : FocusTypeConfig) (now : Int)
    (h : ∀ s ∈ slots, cfg.max_duration < s.duration) :
    filterAndScoreSlots slots task cfg now = [] := by
  unfold filterAndScoreSlots
  rw [List.eq_nil_iff_forall_not_mem]
  intro s hs
  rw [List.mem_mergeSort] at hs
  obtain ⟨a, ha, -⟩ := List.mem_map.mp hs
  obtain ⟨hmem, hp⟩ := List.mem_filter.mp ha
  have hd := h a hmem
  split_ifs at hp

/-- A task longer than its profile's maximum yields an empty
filtered-and-scored slot list: every generated slot carries the effective
duration `max(estimated, min_duration)`, which exceeds `max_duration`. -/
lemma findOptimalTimeSlots_eq_nil_of_overlong (task : TaskData)
    (events : List CalendarEvent) (now : Int)
    (h2 : (FOCUS_TYPE_CONFIGS task.focus_type).max_duration <
      task.estimated_duration) :
    findOptimalTimeSlots task (FOCUS_TYPE_CONFIGS task.focus_type) events now = [] := by
  unfold findOptimalTimeSlots
  refine filterAndScoreSlots_eq_nil_of_overlong _ _ _ _ ?_
  intro s hs
  have hd := findAvailableSlots_duration _ _ _ _ _ _ s hs
  have hmax : task.estimated_duration ≤ max task.estimated_duration
    (FOCUS_TYPE_CONFIGS task.focus_type).min_duration := le_max_left _ _
  omega

/-- When validation passes and the slot pipeline comes back empty,
`scheduleTask` returns exactly the no_slots outcome with no alternatives
and no Notion update. -/
lemma scheduleTask_no_slots_of_empty (task : TaskData)
    (events : List CalendarEvent) (now nowVal : Int) (upd : Bool)
    (h1 : (validateTaskData task).valid = true)
    (hEmpty : findOptimalTimeSlots task (FOCUS_TYPE_CONFIGS task.focus_type)
      events now = []) :
    scheduleTask task events now nowVal upd =
      { result := { success := false, status := .no_slots
                    message := "No available time slots found for this task"
                    scheduled_time := none, alternative_slots := none }
        notionUpdateAttempted := false } := by
  simp only [scheduleTask, h1, Bool.not_true, Bool.false_eq_true, if_false,
    hEmpty, List.isEmpty_nil, if_true]

/-- Claim C3: for every valid task whose estimated duration exceeds the
focus profile's maximum duration, the filtering stage yields zero
candidate slots (every generated slot carries the effective duration
`max(estimated, min_duration)`, which exceeds `max_duration`), and
`scheduleTask` returns a no_slots outcome. -/
theorem overlongDuration_no_slots (task : TaskData)
    (events : List CalendarEvent) (now nowVal : Int) (upd : Bool)
    (h1 : (validateTaskData task).valid = true)
    (h2 : (FOCUS_TYPE_CONFIGS task.focus_type).max_duration <
      task.estimated_duration) :
    findOptimalTimeSlots task (FOCUS_TYPE_CONFIGS task.focus_type) events now = [] ∧
    (scheduleTask task events now nowVal upd).result.status = .no_slots ∧
    (scheduleTask task events now nowVal upd).result.success = false := by
  have hEmpty := findOptimalTimeSlots_eq_nil_of_overlong task events now h2
  rw [scheduleTask_no_slots_of_empty task events now nowVal upd h1 hEmpty]
  exact ⟨hEmpty, rfl, rfl⟩

/-- Witness for claim C3: a 600-minute Admin task (category maximum 90)
with an empty calendar is rejected with no_slots. -/
theorem overlongDuration_no_slots_witness :
    (scheduleTask
      { task_id := "w3", task_name := "w", estimated_duration := 600
        priority := .medium, focus_type := .admin, domain := none
        preferred_times := [.morning], due_date := 0
        buffer_before := 5, buffer_after := 5, flexible := true
        created_at := none, last_edited_time := none }
      [] 0 0 true).result.status = .no_slots :=
  (overlongDuration_no_slots
    { task_id := "w3", task_name := "w", estimated_duration := 600
      priority := .medium, focus_type := .admin, domain := none
      preferred_times := [.morning], due_date := 0
      buffer_before := 5, buffer_after := 5, flexible := true
      created_at := none, last_edited_time := none }
    [] 0 0 true (by decide) (by decide)).2.1

/-- Claim C9: `scheduleTask` never returns an outcome whose status is
conflict - every branch of the source yields scheduled, no_slots or
error. -/
theorem scheduleTask_status_ne_conflict (task : TaskData)
    (events : List CalendarEvent) (now nowVal : Int) (upd : Bool) :
    (scheduleTask task events now nowVal upd).result.status ≠ .conflictStatus := by
  unfold scheduleTask
  dsimp only
  repeat' split
  all_goals simp

/-- Claim C10: `selectBestSlot` returns a slot for every non-empty slot
list, so the `scheduleTask` branch that attaches up to 3 alternative
slots to a no_slots outcome is unreachable, and every no_slots outcome
carries no alternative slots. -/
theorem selectBestSlot_some_and_no_alternatives :
    (∀ (slots : List TimeSlot) (task : TaskData) (u : Rat), slots ≠ [] →
      (selectBestSlot slots task u).isSome = true) ∧
    (∀ (task : TaskData) (events : List CalendarEvent) (now nowVal : Int)
        (upd : Bool),
      (scheduleTask task events now nowVal upd).result.status = .no_slots →
      (scheduleTask task events now nowVal upd).result.alternative_slots = none) := by
  refine ⟨selectBestSlot_isSome, ?_⟩
  intro task events now nowVal upd h
  set r := scheduleTask task events now nowVal upd with hr
  unfold scheduleTask at hr
  dsimp only at hr
  split at hr
  · rw [hr] at h; simp at h
  · split at hr
    · rw [hr]
    · split at hr
      · rename_i heq
        rw [selectBestSlot_eq_none_iff] at heq
        simp_all
      · split at hr
        · rw [hr] at h; simp at h
        · split at hr
          · rw [hr] at h; simp at h
          · rw [hr] at h; simp at h

/-- Concrete input used by the witness of claim C10: a 600-minute Admin
task (category maximum 90), so the slot pipeline comes back empty. -/
def taskW10 : TaskData :=
  { task_id := "w10", task_name := "w", estimated_duration := 600
    priority := .low, focus_type := .admin, domain := none
    preferred_times := [.morning], due_date := 0
    buffer_before := 5, buffer_after := 5, flexible := true
    created_at := none, last_edited_time := none }

/-- Witness for claim C10: a concrete non-empty list gives a selected
slot, and a concrete no_slots run carries no alternatives. -/
theorem selectBestSlot_some_and_no_alternatives_witness :
    (selectBestSlot [⟨600, 660, 60, .acceptable, false⟩] taskW10 0).isSome = true ∧
    (scheduleTask taskW10 [] 0 0 true).result.alternative_slots = none :=
  ⟨selectBestSlot_some_and_no_alternatives.1 [⟨600, 660, 60, .acceptable, false⟩]
    taskW10 0 (by decide),
   selectBestSlot_some_and_no_alternatives.2 taskW10 [] 0 0 true (by
    rw [scheduleTask_no_slots_of_empty taskW10 [] 0 0 true (by decide)
      (findOptimalTimeSlots_eq_nil_of_overlong taskW10 [] 0 (by decide))])⟩

/-- Claim C1 (amended): on the non-empty output of the filter-and-sort
stage, `selectBestSlot` always returns the head of the list sorted by
(quality tier descending, start ascending), for every urgency value.  The
head is the best slot in the sort order (third conjunct), and no slot of
the list is poor (fourth conjunct), so for urgency above 0.8 the chosen
slot is the earliest slot of the highest tier present - the earliest
excellent slot when one exists, otherwise the earliest good slot,
otherwise the globally earliest candidate (all remaining slots being
acceptable) - not the earliest slot of the combined excellent-or-good
set. -/
theorem selectBestSlot_head_of_sorted (slots : List TimeSlot)
    (task : TaskData) (cfg : FocusTypeConfig) (now : Int) (u : Rat)
    (h : filterAndScoreSlots slots task cfg now ≠ []) :
    ∃ b, (filterAndScoreSlots slots task cfg now).head? = some b ∧
      selectBestSlot (filterAndScoreSlots slots task cfg now) task u = some b ∧
      (∀ s ∈ filterAndScoreSlots slots task cfg now, slotLE b s = true) ∧
      (∀ s ∈ filterAndScoreSlots slots task cfg now, s.quality ≠ .poor) := by
  obtain ⟨b, rest, hcons⟩ := List.exists_cons_of_ne_nil h
  have hsorted := filterAndScoreSlots_sorted slots task cfg now
  have hnp : ∀ s ∈ filterAndScoreSlots slots task cfg now, s.quality ≠ .poor :=
    fun s hs => filterAndScoreSlots_mem_ne_poor slots task cfg now s hs
  have hble : ∀ s ∈ filterAndScoreSlots slots task cfg now, slotLE b s = true := by
    intro s hs
    rw [hcons] at hs hsorted
    rcases List.mem_cons.mp hs with rfl | hmem
    · exact slotLE_refl s
    · exact (List.pairwise_cons.mp hsorted).1 s hmem
  refine ⟨b, by rw [hcons]; rfl, ?_, hble, hnp⟩
  rw [hcons]
  unfold selectBestSlot
  simp only [List.isEmpty_cons, Bool.false_eq_true, if_false]
  split
  · by_cases hpb :
      (decide (b.quality = Quality.excellent) || decide (b.quality = Quality.good)) = true
    · rw [@List.filter_cons_of_pos _
        (fun s => decide (s.quality = Quality.excellent) || decide (s.quality = Quality.good))
        b rest hpb]
    · have hq : b.quality = .acceptable := by
        have hbnp := hnp b (hcons ▸ List.mem_cons_self b rest)
        cases hbq : b.quality with
        | excellent => rw [hbq] at hpb; simp at hpb
        | good => rw [hbq] at hpb; simp at hpb
        | acceptable => rfl
        | poor => exact absurd hbq hbnp
      rw [@List.filter_cons_of_neg _
        (fun s => decide (s.quality = Quality.excellent) || decide (s.quality = Quality.good))
        b rest (by simpa using hpb)]
      have hrest : rest.filter (fun s =>
          decide (s.quality = Quality.excellent) || decide (s.quality = Quality.good)) = [] := by
        rw [List.filter_eq_nil_iff]
        intro s hsmem hps
        have hle : slotLE b s = true :=
          hble s (hcons ▸ List.mem_cons_of_mem b hsmem)
        simp only [slotLE, decide_eq_true_eq] at hle
        simp only [Bool.or_eq_true, decide_eq_true_eq] at hps
        rcases hps with hqs | hqs <;>
          rw [hq, hqs] at hle <;> simp [qualityOrder] at hle
      rw [hrest]
      rfl
  · rfl

/-- Concrete task for claim C1: High priority, Deep Work, no freshness
boosts (so the hour filter is bypassed and the scorer is the baseline). -/
def taskC1 : TaskData :=
  { task_id := "t1", task_name := "c", estimated_duration := 60
    priority := .high, focus_type := .deepWork, domain := none
    preferred_times := [.morning], due_date := 0
    buffer_before := 15, buffer_after := 15, flexible := false
    created_at := none, last_edited_time := none }

/-- Concrete slot for claim C1: day 1 at 14:00 (a preferred Deep Work
hour, so it re-scores to excellent). -/
def slotA : TimeSlot :=
  { start := 2280, endTime := 2340, duration := 60
    quality := .acceptable, conflicts := false }

/-- Concrete slot for claim C1: day 1 at 8:00 (within one hour of the
preferred hour 9, so it re-scores to good) - earlier than `slotA`. -/
def slotB : TimeSlot :=
  { start := 1920, endTime := 1980, duration := 60
    quality := .acceptable, conflicts := false }

/-- The filter-and-sort stage on the concrete C1 slots: the excellent
14:00 slot sorts before the good 8:00 slot. -/
lemma filterAndScoreSlots_c1_eval :
    filterAndScoreSlots [slotA, slotB] taskC1 (FOCUS_TYPE_CONFIGS .deepWork) 0 =
      [{ start := 2280, endTime := 2340, duration := 60
         quality := .excellent, conflicts := false },
       { start := 1920, endTime := 1980, duration := 60
         quality := .good, conflicts := false }] := by
  unfold filterAndScoreSlots
  rw [List.mergeSort_of_sorted (by decide)]
  decide

/-- Counterexample to claim C1 as stated: with urgency 0.9 on the
filtered-and-sorted list of the two concrete slots, the source selects
the excellent 14:00 slot (head of the tier-descending sort), while the
claim's stated policy - the earliest slot whose tier is excellent or
good - picks the good 8:00 slot. -/
theorem selectBestSlot_spec_counterexample :
    filterAndScoreSlots [slotA, slotB] taskC1 (FOCUS_TYPE_CONFIGS .deepWork) 0 ≠ [] ∧
    (mkRat 9 10 : Rat) > 8 / 10 ∧
    selectBestSlot (filterAndScoreSlots [slotA, slotB] taskC1
      (FOCUS_TYPE_CONFIGS .deepWork) 0) taskC1 (mkRat 9 10) =
      some { start := 2280, endTime := 2340, duration := 60
             quality := .excellent, conflicts := false } ∧
    c1SpecSelect (filterAndScoreSlots [slotA, slotB] taskC1
      (FOCUS_TYPE_CONFIGS .deepWork) 0) (mkRat 9 10) =
      some { start := 1920, endTime := 1980, duration := 60
             quality := .good, conflicts := false } ∧
    selectBestSlot (filterAndScoreSlots [slotA, slotB] taskC1
      (FOCUS_TYPE_CONFIGS .deepWork) 0) taskC1 (mkRat 9 10) ≠
      c1SpecSelect (filterAndScoreSlots [slotA, slotB] taskC1
        (FOCUS_TYPE_CONFIGS .deepWork) 0) (mkRat 9 10) := by
  have hgt : (mkRat 9 10 : Rat) > 8 / 10 := by norm_num [mkRat, Rat.normalize]
  rw [filterAndScoreSlots_c1_eval]
  refine ⟨by decide, hgt, ?_, ?_, ?_⟩
  · unfold selectBestSlot
    rw [if_neg (by decide), if_pos hgt]
    rfl
  · unfold c1SpecSelect
    rw [if_pos hgt]
    rfl
  · unfold selectBestSlot c1SpecSelect
    rw [if_neg (by decide), if_pos hgt, if_pos hgt]
    decide

/-- Witness for claim C1 (amended): the amended selection applied to the
concrete C1 scenario. -/
theorem selectBestSlot_head_of_sorted_witness :
    ∃ b, (filterAndScoreSlots [slotA, slotB] taskC1
        (FOCUS_TYPE_CONFIGS .deepWork) 0).head? = some b ∧
      selectBestSlot (filterAndScoreSlots [slotA, slotB] taskC1
        (FOCUS_TYPE_CONFIGS .deepWork) 0) taskC1 1 = some b ∧
      (∀ s ∈ filterAndScoreSlots [slotA, slotB] taskC1
        (FOCUS_TYPE_CONFIGS .deepWork) 0, slotLE b s = true) ∧
      (∀ s ∈ filterAndScoreSlots [slotA, slotB] taskC1
        (FOCUS_TYPE_CONFIGS .deepWork) 0, s.quality ≠ .poor) :=
  selectBestSlot_head_of_sorted [slotA, slotB] taskC1
    (FOCUS_TYPE_CONFIGS .deepWork) 0 1
    (by rw [filterAndScoreSlots_c1_eval]; decide)

/-- Claim C5: when the selected best slot starts strictly before
`nowAtValidation + 30` minutes, `scheduleTask` returns an error outcome
carrying the too-soon message, does not attempt the Notion task-store
update, and the outcome is distinct from no_slots. -/
theorem scheduleTask_too_soon_error (task : TaskData)
    (events : List CalendarEvent) (now nowVal : Int) (upd : Bool)
    (b : TimeSlot)
    (h1 : (validateTaskData task).valid = true)
    (hsel : selectBestSlot (findOptimalTimeSlots task
      (FOCUS_TYPE_CONFIGS task.focus_type) events now) task
      (calculateUrgency task now) = some b)
    (hlt : b.start < nowVal + 30) :
    (scheduleTask task events now nowVal upd).result.status = .errorStatus ∧
    (scheduleTask task events now nowVal upd).result.message = tooSoonMessage b.start ∧
    (scheduleTask task events now nowVal upd).notionUpdateAttempted = false ∧
    (scheduleTask task events now nowVal upd).result.status ≠ .no_slots := by
  have hne : (findOptimalTimeSlots task (FOCUS_TYPE_CONFIGS task.focus_type)
      events now).isEmpty = false := by
    rw [List.isEmpty_eq_false]
    intro hnil
    rw [(selectBestSlot_eq_none_iff _ task (calculateUrgency task now)).mpr hnil]
      at hsel
    simp at hsel
  have hval : validateScheduledTime b.start nowVal =
      { valid := false, message := tooSoonMessage b.start } := by
    unfold validateScheduledTime
    dsimp only
    rw [if_pos hlt]
  refine ⟨?_, ?_, ?_, ?_⟩ <;>
    simp [scheduleTask, h1, hne, hsel, hval]

/-- Concrete input for claim C5: a 90-minute low-priority Admin task due
immediately. -/
def taskW5 : TaskData :=
  { task_id := "w5", task_name := "w", estimated_duration := 90
    priority := .low, focus_type := .admin, domain := none
    preferred_times := [.morning], due_date := 0
    buffer_before := 5, buffer_after := 5, flexible := true
    created_at := none, last_edited_time := none }

/-- Concrete calendar for claim C5: day 0 is busy from 10:40 on, and each
of the 14 lookahead days is fully booked, so exactly one candidate slot
(9:00-10:30 of day 0) survives. -/
def busyW5 : List CalendarEvent :=
  [⟨640, 1035, false⟩,
   ⟨1940, 2475, false⟩, ⟨3380, 3915, false⟩, ⟨4820, 5355, false⟩,
   ⟨6260, 6795, false⟩, ⟨7700, 8235, false⟩, ⟨9140, 9675, false⟩,
   ⟨10580, 11115, false⟩, ⟨12020, 12555, false⟩, ⟨13460, 13995, false⟩,
   ⟨14900, 15435, false⟩, ⟨16340, 16875, false⟩, ⟨17780, 18315, false⟩,
   ⟨19220, 19755, false⟩, ⟨20660, 21195, false⟩]

/-- The slot pipeline on the concrete C5 input produces exactly the
9:00-10:30 slot of day 0. -/
lemma findOptimalTimeSlots_w5 :
    findOptimalTimeSlots taskW5 (FOCUS_TYPE_CONFIGS taskW5.focus_type) busyW5 0 =
      [⟨540, 630, 90, .excellent, false⟩] := by
  unfold findOptimalTimeSlots filterAndScoreSlots
  dsimp only
  rw [show CalendarService.findAvailableSlots 0 (0 + max_lookahead_days * 1440)
      (max taskW5.estimated_duration (FOCUS_TYPE_CONFIGS taskW5.focus_type).min_duration)
      (convertPreferredTimesToHours taskW5.preferred_times taskW5.domain) busyW5 0 =
      [⟨540, 630, 90, .excellent, false⟩] from by
    unfold CalendarService.findAvailableSlots
    exact mergeSort_eval _ _ (by decide) (by decide)]
  exact mergeSort_eval _ _ (by decide) (by decide)

/-- On the concrete C5 input the selector picks the 9:00 slot of day 0. -/
lemma selectBestSlot_w5 :
    selectBestSlot (findOptimalTimeSlots taskW5
      (FOCUS_TYPE_CONFIGS taskW5.focus_type) busyW5 0) taskW5
      (calculateUrgency taskW5 0) =
      some ⟨540, 630, 90, .excellent, false⟩ := by
  have hu : calculateUrgency taskW5 0 > 8 / 10 := by
    unfold calculateUrgency
    dsimp only
    rw [show Int.tdiv (taskW5.due_date - 0) 1440 = 0 from by decide,
      show timeUrgency 0 = 1 from by rw [timeUrgency]; norm_num,
      show PRIORITY_WEIGHTS taskW5.priority = 1 from rfl,
      min_eq_right (by norm_num : (1 : Rat) ≤ 1 * (3 / 10) + 1)]
    norm_num
  rw [findOptimalTimeSlots_w5]
  unfold selectBestSlot
  rw [if_neg (by decide), if_pos hu]
  rfl

/-- Witness for claim C5: on the concrete input the found 9:00 slot
(instant 540) starts before `nowAtValidation + 30 = 630`, so the run ends
in the too-soon error without touching the task store. -/
theorem scheduleTask_too_soon_error_witness :
    (scheduleTask taskW5 busyW5 0 600 true).result.status = .errorStatus ∧
    (scheduleTask taskW5 busyW5 0 600 true).result.message =
      tooSoonMessage 540 ∧
    (scheduleTask taskW5 busyW5 0 600 true).notionUpdateAttempted = false := by
  have h := scheduleTask_too_soon_error taskW5 busyW5 0 600 true
    ⟨540, 630, 90, .excellent, false⟩ (by decide) selectBestSlot_w5 (by decide)
  exact ⟨h.1, h.2.1, h.2.2.1⟩

end Claims

end NotionTimeBlock
